import Mathlib

/-!
Verification development for the QA pipeline orchestrator.

Shallow embedding of the orchestration core:
* `src/graph/state.py` — enums, dataclasses, the `AgentState` TypedDict
  and `create_initial_state`;
* `src/graph/nodes/_judge_base.py` — `run_judge`, the shared evaluator logic;
* `src/graph/nodes/requirements_spec_gen.py` (and the structurally identical
  strategy / code-plan / scripting generators) — the generator delta;
* `src/graph/nodes/test_case_generation.py` — the Gherkin generator, including
  its reference to the undefined name `test_case_iteration_count`;
* `src/graph/nodes/human_review_spec.py` — `_human_review_base` and the five
  approval-gate nodes;
* `src/graph/nodes/judge_code_plan.py` — the critical-issue routing override;
* `src/graph/edges/conditional.py` — `_safe_get_stage_value` and the eleven
  routing functions.

The Python nodes are functions from the state dict to a partial state dict
(a delta merged into the state by the framework).  The embedding mirrors
that: nodes return a `Delta`, and `applyDelta` is the merge.  Calls to the
external LLM collaborator are modelled as explicit outcome parameters
(`LLMCall` / `GenCall`): either the call raised, or it returned content with
a cost; for judges the JSON extraction outcome of the returned content is
part of the input.  State keys read with `.get(key, default)` are modelled
as `Option` fields read through `getD`.  Nondeterministic identifiers
(`uuid4`) and wall-clock timestamps are omitted from the records.  Python
floats (scores, costs) are carried as `Rat`; no claim depends on
floating-point rounding.  Iteration counters are keyed by the literal state
key strings (as an `IterKey` enumeration) because the judge of the
test-cases cycle reads a different key than its generator writes.
-/

/-- `WorkflowStage` from `src/graph/state.py`. -/
inductive WorkflowStage
  | QA_INTERACTION
  | REQUIREMENTS_SPEC_GEN
  | JUDGE_REQUIREMENTS
  | HUMAN_REVIEW_SPEC
  | STRATEGY
  | JUDGE_STRATEGY
  | HUMAN_REVIEW_STRATEGY
  | TEST_CASE_GENERATION
  | JUDGE_TEST_CASES
  | HUMAN_REVIEW_TEST_CASES
  | CODE_STRUCTURE_PLANNING
  | JUDGE_CODE_PLAN
  | HUMAN_REVIEW_CODE_PLAN
  | SCRIPTING
  | JUDGE_CODE
  | HUMAN_REVIEW_CODE
  | EXECUTION
  | HEALING
  | REPORTING
  | COMPLETED
  | FAILED
deriving DecidableEq, Repr

/-- The `.value` string of each `WorkflowStage` enum member. -/
def WorkflowStage.value : WorkflowStage → String
  | .QA_INTERACTION => "qa_interaction"
  | .REQUIREMENTS_SPEC_GEN => "requirements_spec_gen"
  | .JUDGE_REQUIREMENTS => "judge_requirements"
  | .HUMAN_REVIEW_SPEC => "human_review_spec"
  | .STRATEGY => "strategy"
  | .JUDGE_STRATEGY => "judge_strategy"
  | .HUMAN_REVIEW_STRATEGY => "human_review_strategy"
  | .TEST_CASE_GENERATION => "test_case_generation"
  | .JUDGE_TEST_CASES => "judge_test_cases"
  | .HUMAN_REVIEW_TEST_CASES => "human_review_test_cases"
  | .CODE_STRUCTURE_PLANNING => "code_structure_planning"
  | .JUDGE_CODE_PLAN => "judge_code_plan"
  | .HUMAN_REVIEW_CODE_PLAN => "human_review_code_plan"
  | .SCRIPTING => "scripting"
  | .JUDGE_CODE => "judge_code"
  | .HUMAN_REVIEW_CODE => "human_review_code"
  | .EXECUTION => "execution"
  | .HEALING => "healing"
  | .REPORTING => "reporting"
  | .COMPLETED => "completed"
  | .FAILED => "failed"

/-- `JudgeResult` from `src/graph/state.py`. -/
inductive JudgeResult
  | PASS
  | FAIL
  | NEEDS_HUMAN
deriving DecidableEq, Repr

/-- `JudgeResult(value)`: the enum constructor raises `ValueError` on an
unrecognized tag, modelled by `none`. -/
def JudgeResult.ofString (s : String) : Option JudgeResult :=
  if s = "PASS" then some .PASS
  else if s = "FAIL" then some .FAIL
  else if s = "NEEDS_HUMAN" then some .NEEDS_HUMAN
  else none

/-- `WorkflowStatus` from `src/graph/state.py`. -/
inductive WorkflowStatus
  | RUNNING
  | WAITING_APPROVAL
  | COMPLETED
  | FAILED
deriving DecidableEq, Repr

/-- One entry of a judge evaluation `issues` list.  In Python these are
arbitrary dicts; `judge_code_plan_node` reads them with
`issue.get("type", "")` and `issue.get("description", "")`, so the two keys
that the core inspects are modelled, each possibly absent. -/
structure Issue where
  type : Option String
  description : Option String
deriving DecidableEq, Repr

/-- `JudgeEvaluation` from `src/graph/state.py` (the `timestamp` field,
filled from the wall clock, is omitted). -/
structure JudgeEvaluation where
  score : Rat
  result : JudgeResult
  feedback : String
  issues : List Issue
  recommendations : List String
deriving DecidableEq, Repr

/-- `DocumentVersion` from `src/graph/state.py`.  The `document_id` /
`workflow_id` (uuid4), `storage_url`, judge annotations and `created_at`
timestamp are omitted: no claim refers to them and they are either
nondeterministic or constant on the paths modelled. -/
structure DocumentVersion where
  document_type : String
  version : Nat
  content : String
  format : String
  created_by : String
  is_approved : Bool
deriving DecidableEq, Repr

/-- `ApprovalGate` from `src/graph/state.py` (`reviewed_at`, filled from the
wall clock, is omitted).  `_human_review_base` assigns the integer document
version from state to `document_version`. -/
structure ApprovalGate where
  gate_name : String
  status : String
  reviewer : Option String
  feedback : Option String
  document_version : Option Nat
deriving DecidableEq, Repr

/-- A pending gate as built by `create_initial_state`:
`ApprovalGate(gate_name=k)` with dataclass defaults. -/
def ApprovalGate.pending (name : String) : ApprovalGate :=
  { gate_name := name, status := "pending", reviewer := none,
    feedback := none, document_version := none }

/-- The five artifact kinds.  Each kind names one consistent family of state
keys (content / version / history / evaluation) used by its nodes. -/
inductive DocKind
  | spec
  | strategy
  | test_cases
  | code_plan
  | code
deriving DecidableEq, Repr

/-- The `gate_name` string of a kind, as passed to `_human_review_base`. -/
def DocKind.gateName : DocKind → String
  | .spec => "spec"
  | .strategy => "strategy"
  | .test_cases => "test_cases"
  | .code_plan => "code_plan"
  | .code => "code"

/-- The literal iteration-counter state keys occurring in the source.  The
generator of the test-cases cycle writes `test_cases_iteration_count` (the
field declared in `AgentState`), while `judge_test_cases_node` passes
`iteration_count_key="test_case_iteration_count"` — a distinct key — so the
two must be kept apart. -/
inductive IterKey
  | requirements_iteration_count
  | strategy_iteration_count
  | test_case_iteration_count
  | test_cases_iteration_count
  | code_plan_iteration_count
  | script_iteration_count
deriving DecidableEq, Repr

/-- The literal live-version state keys occurring in the source.  The
Gherkin generator reads and writes `current_gherkin_version`, a key that is
NOT declared in `AgentState` and is never initialized, while the declared
`current_test_cases_version` (initialized by `create_initial_state`, read
by the test-cases gate and the snapshot view) is never written by any
node — so the two must be kept apart. -/
inductive VersionKey
  | current_requirements_spec_version
  | current_strategy_version
  | current_test_cases_version
  | current_gherkin_version
  | current_code_plan_version
  | current_script_version
deriving DecidableEq, Repr

/-- The literal history state keys occurring in the source.  As with the
version keys, the Gherkin generator appends to the undeclared
`gherkin_history` while the declared `test_cases_history` (initialized at
run start) is never written by any node. -/
inductive HistoryKey
  | requirements_spec_history
  | strategy_history
  | test_cases_history
  | gherkin_history
  | code_plan_history
  | script_history
deriving DecidableEq, Repr

/-- The `approval_gates` dict: one optional `ApprovalGate` per gate name. -/
structure GateMap where
  spec : Option ApprovalGate
  strategy : Option ApprovalGate
  test_cases : Option ApprovalGate
  code_plan : Option ApprovalGate
  code : Option ApprovalGate
deriving DecidableEq, Repr

/-- The empty dict `{}`, the default of `state.get("approval_gates", {})`. -/
def GateMap.empty : GateMap :=
  { spec := none, strategy := none, test_cases := none,
    code_plan := none, code := none }

/-- Dict lookup `approval_gates[gate_name]`. -/
def GateMap.get (g : GateMap) : DocKind → Option ApprovalGate
  | .spec => g.spec
  | .strategy => g.strategy
  | .test_cases => g.test_cases
  | .code_plan => g.code_plan
  | .code => g.code

/-- Dict assignment `approval_gates[gate_name] = v`. -/
def GateMap.set (g : GateMap) (k : DocKind) (v : ApprovalGate) : GateMap :=
  match k with
  | .spec => { g with spec := some v }
  | .strategy => { g with strategy := some v }
  | .test_cases => { g with test_cases := some v }
  | .code_plan => { g with code_plan := some v }
  | .code => { g with code := some v }

/-- The `current_stage` slot of the state dict.  `_safe_get_stage_value`
distinguishes a genuine `WorkflowStage` enum member, a plain string, and any
other value, so all three shapes are representable. -/
inductive StageValue
  | stage (s : WorkflowStage)
  | strVal (s : String)
  | otherVal
deriving DecidableEq, Repr

/-- The slice of the `AgentState` TypedDict that the claims touch.  All
fields are optional (`total=False`); reads in the source go through
`state.get(key, default)`, embedded as `getD`.  The per-kind content /
version / history / evaluation keys are collapsed to functions on `DocKind`
(each kind has one consistent key family in the source), while iteration
counters are keyed by the literal `IterKey` strings. -/
structure AgentState where
  current_stage : Option StageValue
  workflow_status : Option WorkflowStatus
  error_message : Option String
  accumulated_cost_usd : Option Rat
  max_judge_iterations : Option Nat
  content : DocKind → Option String
  version : VersionKey → Option Nat
  history : HistoryKey → Option (List DocumentVersion)
  iteration_count : IterKey → Option Nat
  judge_evaluation : DocKind → Option JudgeEvaluation
  approval_gates : Option GateMap
  human_feedback : Option String
  script_filename : Option String
  gherkin_validation_passed : Option Bool

/-- A partial state dict returned by a node: `some v` marks a key present in
the returned dict, `none` a key the dict does not mention. -/
structure Delta where
  current_stage : Option StageValue
  workflow_status : Option WorkflowStatus
  error_message : Option String
  accumulated_cost_usd : Option Rat
  content : DocKind → Option String
  version : VersionKey → Option Nat
  history : HistoryKey → Option (List DocumentVersion)
  iteration_count : IterKey → Option Nat
  judge_evaluation : DocKind → Option JudgeEvaluation
  approval_gates : Option GateMap
  human_feedback : Option String
  script_filename : Option String
  gherkin_validation_passed : Option Bool

/-- The delta of a node that returns the empty dict (no key present). -/
def Delta.empty : Delta :=
  { current_stage := none, workflow_status := none, error_message := none,
    accumulated_cost_usd := none,
    content := fun _ => none, version := fun _ => none,
    history := fun _ => none, iteration_count := fun _ => none,
    judge_evaluation := fun _ => none, approval_gates := none,
    human_feedback := none, script_filename := none,
    gherkin_validation_passed := none }

/-- A single-key update: `some v` at `k`, absent elsewhere. -/
def oneKind [DecidableEq κ] (k : κ) (v : α) : κ → Option α :=
  fun j => if j = k then some v else none

/-- Key merge of the framework: a key present in the delta overwrites the
state, an absent key leaves the state value. -/
def mergeField (dv sv : Option α) : Option α :=
  match dv with
  | some v => some v
  | none => sv

/-- Merging a node delta into the state, as the graph framework does with
the dict a node returns. -/
def applyDelta (s : AgentState) (d : Delta) : AgentState :=
  { current_stage := mergeField d.current_stage s.current_stage
    workflow_status := mergeField d.workflow_status s.workflow_status
    error_message := mergeField d.error_message s.error_message
    accumulated_cost_usd := mergeField d.accumulated_cost_usd s.accumulated_cost_usd
    max_judge_iterations := s.max_judge_iterations
    content := fun k => mergeField (d.content k) (s.content k)
    version := fun k => mergeField (d.version k) (s.version k)
    history := fun k => mergeField (d.history k) (s.history k)
    iteration_count := fun k => mergeField (d.iteration_count k) (s.iteration_count k)
    judge_evaluation := fun k => mergeField (d.judge_evaluation k) (s.judge_evaluation k)
    approval_gates := mergeField d.approval_gates s.approval_gates
    human_feedback := mergeField d.human_feedback s.human_feedback
    script_filename := mergeField d.script_filename s.script_filename
    gherkin_validation_passed :=
      mergeField d.gherkin_validation_passed s.gherkin_validation_passed }

/-- `create_initial_state` from `src/graph/state.py`: contents empty,
versions 0, histories empty, counters 0, all five gates pre-created pending,
cost 0, status RUNNING, stage QA_INTERACTION.  Note that
`max_judge_iterations` is not initialized there (readers default it to 3),
and neither the key `test_case_iteration_count` nor the keys
`current_gherkin_version` / `gherkin_history` are ever initialized there
(the latter two are written only by the Gherkin generator). -/
def initialAgentState : AgentState :=
  { current_stage := some (.stage .QA_INTERACTION)
    workflow_status := some .RUNNING
    error_message := none
    accumulated_cost_usd := some 0
    max_judge_iterations := none
    content := fun _ => some ""
    version := fun k =>
      match k with
      | .current_gherkin_version => none
      | _ => some 0
    history := fun k =>
      match k with
      | .gherkin_history => none
      | _ => some []
    iteration_count := fun k =>
      match k with
      | .test_case_iteration_count => none
      | _ => some 0
    judge_evaluation := fun _ => none
    approval_gates := some
      { spec := some (ApprovalGate.pending "spec")
        strategy := some (ApprovalGate.pending "strategy")
        test_cases := some (ApprovalGate.pending "test_cases")
        code_plan := some (ApprovalGate.pending "code_plan")
        code := some (ApprovalGate.pending "code") }
    human_feedback := none
    script_filename := none
    gherkin_validation_passed := none }

/-- Python substring membership `pat in s` (used by `judge_code_plan_node`
on lowercased issue text). -/
def strContainsSub (s pat : String) : Bool :=
  (List.range (s.length + 1)).any fun i => pat.toList.isPrefixOf (s.toList.drop i)

/-- Python `str.lower()`, applied character-wise (the character-list
counterpart of `String.toLower`; written over the data list so that it
computes inside the kernel). -/
def strLower (s : String) : String :=
  String.mk (s.data.map Char.toLower)

/-- The structured payload a judge LLM response parses into:
`extract_json_from_response` yields a dict, from which `run_judge` reads
`score`, `result`, `feedback` by subscript (KeyError when absent) and
`issues`, `recommendations` by `.get` with list defaults. -/
structure RawJudgeJson where
  score : Option Rat
  result : Option String
  feedback : Option String
  issues : Option (List Issue)
  recommendations : Option (List String)
deriving DecidableEq, Repr

/-- Building the `JudgeEvaluation` dataclass from the extracted dict inside
`run_judge`.  Failure cases, in source order: `result_json["score"]`
(KeyError), `result_json["result"]` (KeyError), `JudgeResult(...)`
(ValueError on an invalid tag), `result_json["feedback"]` (KeyError). -/
def parseJudgeEvaluation (j : RawJudgeJson) : Except String JudgeEvaluation :=
  match j.score with
  | none => .error "KeyError: score"
  | some sc =>
    match j.result with
    | none => .error "KeyError: result"
    | some rs =>
      match JudgeResult.ofString rs with
      | none => .error ("ValueError: " ++ rs ++ " is not a valid JudgeResult")
      | some r =>
        match j.feedback with
        | none => .error "KeyError: feedback"
        | some fb =>
          .ok { score := sc, result := r, feedback := fb,
                issues := j.issues.getD [],
                recommendations := j.recommendations.getD [] }

/-- Outcome of the evaluator collaborator boundary inside a judge node:
either `call_llm` raised (`RuntimeError` and the like), or it returned a
response whose JSON-extraction outcome is `json` and whose cost is `cost`. -/
inductive LLMCall
  | raised (msg : String)
  | returned (json : Except String RawJudgeJson) (cost : Rat)

/-- Outcome of the generator collaborator boundary: either `call_llm`
raised `RuntimeError`, or it returned `content` at `cost`. -/
inductive GenCall
  | raised (msg : String)
  | returned (content : String) (cost : Rat)

/-- The feedback rewrite applied by `run_judge` on the final iteration:
`f"[MAX ITERATIONS REACHED] {feedback}\n\nThis document has been
regenerated {iteration_count} times and still does not meet quality
standards. Human review is required."` -/
def maxIterationsNotice (iteration_count : Nat) (feedback : String) : String :=
  "[MAX ITERATIONS REACHED] " ++ feedback ++
    "\n\nThis document has been regenerated " ++ toString iteration_count ++
    " times and still does not meet quality standards. Human review is required."

/-- The dict returned by `run_judge` when the evaluator call or the parse of
its output raised: `workflow_status` FAILED, `error_message` set, stage
FAILED; no evaluation and no cost key. -/
def judgeFailureDelta (trace_name msg : String) : Delta :=
  { Delta.empty with
    workflow_status := some .FAILED
    error_message := some ("Judge " ++ trace_name ++ " failed: " ++ msg)
    current_stage := some (.stage .FAILED) }

/-- `run_judge` from `src/graph/nodes/_judge_base.py`.  `kind` stands for
the `evaluation_key` (every call site pairs `judge_<kind>_evaluation` with
its kind) and `iteration_count_key` is the literal counter key the call
site passes. -/
def run_judge (state : AgentState) (kind : DocKind)
    (iteration_count_key : IterKey) (trace_name : String)
    (failure_stage human_review_stage pass_stage : WorkflowStage)
    (call : LLMCall) : Delta :=
  let iteration_count := (state.iteration_count iteration_count_key).getD 0
  let max_iterations := state.max_judge_iterations.getD 3
  let is_final_iteration : Bool := iteration_count ≥ max_iterations - 1
  match call with
  | .raised msg => judgeFailureDelta trace_name msg
  | .returned ejson cost =>
    match ejson with
    | .error msg => judgeFailureDelta trace_name msg
    | .ok j =>
      match parseJudgeEvaluation j with
      | .error msg => judgeFailureDelta trace_name msg
      | .ok parsed =>
        let evaluation :=
          if is_final_iteration ∧ parsed.result = JudgeResult.FAIL then
            { parsed with
              result := JudgeResult.NEEDS_HUMAN
              feedback := maxIterationsNotice iteration_count parsed.feedback }
          else parsed
        let next_stage :=
          match evaluation.result with
          | .PASS => pass_stage
          | .FAIL => failure_stage
          | .NEEDS_HUMAN => human_review_stage
        { Delta.empty with
          judge_evaluation := oneKind kind evaluation
          current_stage := some (.stage next_stage)
          accumulated_cost_usd :=
            some ((state.accumulated_cost_usd.getD 0) + cost) }

/-- `judge_requirements_node`: `run_judge` with the requirements stages and
keys. -/
def judge_requirements_node (state : AgentState) (call : LLMCall) : Delta :=
  run_judge state .spec .requirements_iteration_count "judge_requirements"
    .REQUIREMENTS_SPEC_GEN .HUMAN_REVIEW_SPEC .HUMAN_REVIEW_SPEC call

/-- `judge_strategy_node`: `run_judge` with the strategy stages and keys. -/
def judge_strategy_node (state : AgentState) (call : LLMCall) : Delta :=
  run_judge state .strategy .strategy_iteration_count "judge_strategy"
    .STRATEGY .HUMAN_REVIEW_STRATEGY .HUMAN_REVIEW_STRATEGY call

/-- `judge_test_cases_node`: `run_judge` with the test-cases stages.  The
call site passes `iteration_count_key="test_case_iteration_count"` — the
singular key, not the `test_cases_iteration_count` field that the generator
increments. -/
def judge_test_cases_node (state : AgentState) (call : LLMCall) : Delta :=
  run_judge state .test_cases .test_case_iteration_count "judge_test_cases"
    .TEST_CASE_GENERATION .HUMAN_REVIEW_TEST_CASES .HUMAN_REVIEW_TEST_CASES call

/-- `judge_code_node`: `run_judge` with the script stages and keys. -/
def judge_code_node (state : AgentState) (call : LLMCall) : Delta :=
  run_judge state .code .script_iteration_count "judge_code"
    .SCRIPTING .HUMAN_REVIEW_CODE .HUMAN_REVIEW_CODE call

/-- The critical-issue scan of `judge_code_plan_node`: an issue is critical
when `"duplicate"` occurs in its lowercased description or lowercased type,
or `"convention"` and `"violat"` both occur in its lowercased
description. -/
def issueIsCritical (issue : Issue) : Bool :=
  let description_lower := strLower (issue.description.getD "")
  let issue_type := strLower (issue.type.getD "")
  (strContainsSub description_lower "duplicate" ||
    strContainsSub issue_type "duplicate") ||
  (strContainsSub description_lower "convention" &&
    strContainsSub description_lower "violat")

/-- The loop over `evaluation.issues` in `judge_code_plan_node`. -/
def hasCriticalIssue (issues : List Issue) : Bool :=
  issues.any issueIsCritical

/-- `judge_code_plan_node` from `src/graph/nodes/judge_code_plan.py`: the
shared judge, then the special routing override — when the result contains
an evaluation and was routed to `CODE_STRUCTURE_PLANNING` (a FAIL), it is
re-routed to `HUMAN_REVIEW_CODE_PLAN` unless some issue is critical. -/
def judge_code_plan_node (state : AgentState) (call : LLMCall) : Delta :=
  let result := run_judge state .code_plan .code_plan_iteration_count
    "judge_code_plan" .CODE_STRUCTURE_PLANNING .HUMAN_REVIEW_CODE_PLAN
    .HUMAN_REVIEW_CODE_PLAN call
  match result.judge_evaluation .code_plan with
  | none => result
  | some evaluation =>
    if result.current_stage = some (.stage .CODE_STRUCTURE_PLANNING) then
      if hasCriticalIssue evaluation.issues then result
      else { result with current_stage := some (.stage .HUMAN_REVIEW_CODE_PLAN) }
    else result

/-- The document record a generator appends: `DocumentVersion(...)` with
`version=new_version`, the LLM content, `created_by="ai"`,
`is_approved=False`. -/
def mkGeneratedDoc (doc_type fmt : String) (new_version : Nat)
    (content : String) : DocumentVersion :=
  { document_type := doc_type, version := new_version, content := content,
    format := fmt, created_by := "ai", is_approved := false }

/-- The dict returned by a generator node when `call_llm` raised
`RuntimeError`: status FAILED, `error_message` the verbatim error text,
stage FAILED; nothing else. -/
def genFailureDelta (msg : String) : Delta :=
  { Delta.empty with
    workflow_status := some .FAILED
    error_message := some msg
    current_stage := some (.stage .FAILED) }

/-- The shared shape of `requirements_spec_gen_node`, `strategy_node`,
`code_structure_planning_node` and `scripting_node` (the prompt assembly,
which has no effect on the returned dict, is not modelled): on success the
node bumps the version, appends one `DocumentVersion` to the history,
increments its iteration counter, routes to its judge stage and adds the
call cost; on `RuntimeError` it fails the run. -/
def gen_node (state : AgentState) (kind : DocKind) (ikey : IterKey)
    (vkey : VersionKey) (hkey : HistoryKey)
    (doc_type fmt : String) (next_stage : WorkflowStage)
    (call : GenCall) : Delta :=
  match call with
  | .raised msg => genFailureDelta msg
  | .returned content cost =>
    let iteration_count := (state.iteration_count ikey).getD 0
    let current_version := (state.version vkey).getD 0
    let new_version := current_version + 1
    let doc := mkGeneratedDoc doc_type fmt new_version content
    let updated_history := (state.history hkey).getD [] ++ [doc]
    { Delta.empty with
      content := oneKind kind content
      version := oneKind vkey new_version
      history := oneKind hkey updated_history
      iteration_count := oneKind ikey (iteration_count + 1)
      current_stage := some (.stage next_stage)
      accumulated_cost_usd := some ((state.accumulated_cost_usd.getD 0) + cost) }

/-- `requirements_spec_gen_node` from
`src/graph/nodes/requirements_spec_gen.py`. -/
def requirements_spec_gen_node (state : AgentState) (call : GenCall) : Delta :=
  gen_node state .spec .requirements_iteration_count
    .current_requirements_spec_version .requirements_spec_history
    "requirements_spec" "markdown" .JUDGE_REQUIREMENTS call

/-- `strategy_node` from `src/graph/nodes/strategy.py`. -/
def strategy_node (state : AgentState) (call : GenCall) : Delta :=
  gen_node state .strategy .strategy_iteration_count .current_strategy_version
    .strategy_history "strategy" "markdown" .JUDGE_STRATEGY call

/-- `code_structure_planning_node` from
`src/graph/nodes/code_structure_planning.py`. -/
def code_structure_planning_node (state : AgentState) (call : GenCall) : Delta :=
  gen_node state .code_plan .code_plan_iteration_count
    .current_code_plan_version .code_plan_history "code_plan" "markdown"
    .JUDGE_CODE_PLAN call

/-- `scripting_node` from `src/graph/nodes/scripting.py`: the generator
pattern for the script kind plus the constant `script_filename`. -/
def scripting_node (state : AgentState) (call : GenCall) : Delta :=
  let d := gen_node state .code .script_iteration_count .current_script_version
    .script_history "script" "python" .JUDGE_CODE call
  match call with
  | .raised _ => d
  | .returned _ _ => { d with script_filename := some "test_generated.py" }

/-- Outcome of the Gherkin generator body: `call_llm` raised, or the
internal validation loop finished with final `content`, validity flag and
the cost of the last call. -/
inductive TCGenOutcome
  | raisedRuntime (msg : String)
  | success (content : String) (valid : Bool) (cost : Rat)

/-- `test_case_generation_node` from
`src/graph/nodes/test_case_generation.py`.  When
`judge_test_cases_evaluation` is present (any regeneration attempt), line 42
evaluates the undefined name `test_case_iteration_count` and the node raises
`NameError`, which the `except RuntimeError` clause does not catch: the
exception escapes the node, modelled as `none`.  Otherwise the node follows
the generator pattern, but its version and history live under the
UNDECLARED keys `current_gherkin_version` / `gherkin_history` (lines 37,
105, 113-114) — not under the declared `current_test_cases_version` /
`test_cases_history` that `create_initial_state` initializes and that the
test-cases gate and the snapshot view read. -/
def test_case_generation_node (state : AgentState)
    (outcome : TCGenOutcome) : Option Delta :=
  if (state.judge_evaluation .test_cases).isSome then
    none
  else
    match outcome with
    | .raisedRuntime msg => some (genFailureDelta msg)
    | .success content valid cost =>
      let iteration_count :=
        (state.iteration_count .test_cases_iteration_count).getD 0
      let current_version := (state.version .current_gherkin_version).getD 0
      let new_version := current_version + 1
      let doc := mkGeneratedDoc "gherkin" "gherkin" new_version content
      let updated_history := (state.history .gherkin_history).getD [] ++ [doc]
      some
        { Delta.empty with
          content := oneKind .test_cases content
          gherkin_validation_passed := some valid
          version := oneKind VersionKey.current_gherkin_version new_version
          history := oneKind HistoryKey.gherkin_history updated_history
          iteration_count :=
            oneKind IterKey.test_cases_iteration_count (iteration_count + 1)
          current_stage := some (.stage .JUDGE_TEST_CASES)
          accumulated_cost_usd :=
            some ((state.accumulated_cost_usd.getD 0) + cost) }

/-- The decision payload supplied when a suspended gate is resumed.  In the
source it is a dict read with `human_response.get("decision", "REJECT")`,
`.get("feedback", "")` and `.get("edited_content", "")`.  The
`document_version` field models a version reference a caller may place in
the payload; no code in `_human_review_base` reads it. -/
structure HumanResponse where
  decision : Option String
  feedback : Option String
  edited_content : Option String
  document_version : Option Nat
deriving DecidableEq, Repr

/-- `_human_review_base` from `src/graph/nodes/human_review_spec.py`,
resumed with `human_response` (the value `interrupt(payload)` returns).
`kind` stands for the `gate_name` / `document_content_key` pair and `vkey`
for the literal `document_version_key` the call site passes.  The interrupt
payload itself is display data and carries no state effect. -/
def human_review_base (state : AgentState) (kind : DocKind)
    (vkey : VersionKey) (approve_stage reject_stage : WorkflowStage)
    (human_response : HumanResponse) : Delta :=
  let document_version := (state.version vkey).getD 1
  let decision := human_response.decision.getD "REJECT"
  let feedback := human_response.feedback.getD ""
  let edited_content := human_response.edited_content.getD ""
  let approval_gates := state.approval_gates.getD GateMap.empty
  if decision = "APPROVE" then
    { Delta.empty with
      approval_gates := some (approval_gates.set kind
        { gate_name := kind.gateName, status := "approved",
          reviewer := some "human", feedback := some feedback,
          document_version := some document_version })
      current_stage := some (.stage approve_stage) }
  else if decision = "EDIT" then
    { Delta.empty with
      content := oneKind kind edited_content
      approval_gates := some (approval_gates.set kind
        { gate_name := kind.gateName, status := "approved",
          reviewer := some "human",
          feedback := some ("Approved with edits: " ++ feedback),
          document_version := some document_version })
      current_stage := some (.stage approve_stage) }
  else
    { Delta.empty with
      approval_gates := some (approval_gates.set kind
        { gate_name := kind.gateName, status := "rejected",
          reviewer := some "human", feedback := some feedback,
          document_version := some document_version })
      human_feedback := some feedback
      current_stage := some (.stage reject_stage) }

/-- Gate #1, `human_review_spec_node`. -/
def human_review_spec_node (state : AgentState) (r : HumanResponse) : Delta :=
  human_review_base state .spec .current_requirements_spec_version .STRATEGY
    .REQUIREMENTS_SPEC_GEN r

/-- Gate #2, `human_review_strategy_node`. -/
def human_review_strategy_node (state : AgentState) (r : HumanResponse) : Delta :=
  human_review_base state .strategy .current_strategy_version
    .TEST_CASE_GENERATION .STRATEGY r

/-- Gate #3, `human_review_test_cases_node`. -/
def human_review_test_cases_node (state : AgentState) (r : HumanResponse) : Delta :=
  human_review_base state .test_cases .current_test_cases_version
    .CODE_STRUCTURE_PLANNING .TEST_CASE_GENERATION r

/-- Gate #4, `human_review_code_plan_node`. -/
def human_review_code_plan_node (state : AgentState) (r : HumanResponse) : Delta :=
  human_review_base state .code_plan .current_code_plan_version .SCRIPTING
    .CODE_STRUCTURE_PLANNING r

/-- Gate #5, `human_review_code_node`. -/
def human_review_code_node (state : AgentState) (r : HumanResponse) : Delta :=
  human_review_base state .code .current_script_version .COMPLETED
    .SCRIPTING r

/-- The framework constant `END` from `langgraph.graph`. -/
def endKey : String := "__end__"

/-- `_safe_get_stage_value` from `src/graph/edges/conditional.py`:
`state.get("current_stage", WorkflowStage.FAILED)`, then FAILED (as enum or
as the string "failed") and non-stage values resolve to `END`; any other
stage resolves to its `.value` string. -/
def safe_get_stage_value (state : AgentState) : String :=
  match state.current_stage.getD (.stage .FAILED) with
  | .stage s => if s = .FAILED then endKey else s.value
  | .strVal s => if s = WorkflowStage.FAILED.value then endKey else s
  | .otherVal => endKey

/-- `route_after_qa_interaction`. -/
def route_after_qa_interaction (state : AgentState) : String :=
  safe_get_stage_value state

/-- `route_after_judge_requirements`. -/
def route_after_judge_requirements (state : AgentState) : String :=
  safe_get_stage_value state

/-- `route_after_human_review_spec`. -/
def route_after_human_review_spec (state : AgentState) : String :=
  safe_get_stage_value state

/-- `route_after_judge_strategy`. -/
def route_after_judge_strategy (state : AgentState) : String :=
  safe_get_stage_value state

/-- `route_after_human_review_strategy`. -/
def route_after_human_review_strategy (state : AgentState) : String :=
  safe_get_stage_value state

/-- `route_after_judge_test_cases`. -/
def route_after_judge_test_cases (state : AgentState) : String :=
  safe_get_stage_value state

/-- `route_after_human_review_test_cases`. -/
def route_after_human_review_test_cases (state : AgentState) : String :=
  safe_get_stage_value state

/-- `route_after_judge_code_plan`. -/
def route_after_judge_code_plan (state : AgentState) : String :=
  safe_get_stage_value state

/-- `route_after_human_review_code_plan`. -/
def route_after_human_review_code_plan (state : AgentState) : String :=
  safe_get_stage_value state

/-- `route_after_judge_code`. -/
def route_after_judge_code (state : AgentState) : String :=
  safe_get_stage_value state

/-- `route_after_human_review_code`. -/
def route_after_human_review_code (state : AgentState) : String :=
  safe_get_stage_value state

/-- A judge LLM response carrying a FAIL verdict, as parsed from a forced
evaluator (score 55, no issues). -/
def failJudgeJson : RawJudgeJson :=
  { score := some 55, result := some "FAIL",
    feedback := some "Document is incomplete.",
    issues := some [], recommendations := some [] }

/-- The initial state positioned at the Spec generator (the run has passed
the Q&A stage and enters the Spec cycle). -/
def specScenarioStart : AgentState :=
  { initialAgentState with current_stage := some (.stage .REQUIREMENTS_SPEC_GEN) }

/-- Driving the Spec cycle while the evaluator is forced to FAIL: a step at
the generator stage runs `requirements_spec_gen_node` (counting it), a step
at the judge stage runs `judge_requirements_node` with the FAIL response;
any other stage stops.  Returns the final state and the number of generator
executions. -/
def runSpecFailLoop : Nat → AgentState → AgentState × Nat
  | 0, s => (s, 0)
  | Nat.succ fuel, s =>
    match s.current_stage with
    | some (.stage .REQUIREMENTS_SPEC_GEN) =>
      let s2 := applyDelta s (requirements_spec_gen_node s (.returned "spec draft" 0))
      let r := runSpecFailLoop fuel s2
      (r.1, r.2 + 1)
    | some (.stage .JUDGE_REQUIREMENTS) =>
      runSpecFailLoop fuel
        (applyDelta s (judge_requirements_node s (.returned (.ok failJudgeJson) 0)))
    | _ => (s, 0)

/-- State after the first Spec generation. -/
def specS1 : AgentState :=
  applyDelta specScenarioStart
    (requirements_spec_gen_node specScenarioStart (.returned "spec draft" 0))

/-- State after the first (forced-FAIL) Spec evaluation. -/
def specS2 : AgentState :=
  applyDelta specS1 (judge_requirements_node specS1 (.returned (.ok failJudgeJson) 0))

/-- State after the second Spec generation. -/
def specS3 : AgentState :=
  applyDelta specS2
    (requirements_spec_gen_node specS2 (.returned "spec draft" 0))

/-- State after the second (forced-FAIL) Spec evaluation. -/
def specS4 : AgentState :=
  applyDelta specS3 (judge_requirements_node specS3 (.returned (.ok failJudgeJson) 0))

/-- A state of the test-cases cycle in which the TestCases iteration counter
(the `test_cases_iteration_count` field that `test_case_generation_node`
increments) has reached 2 — the cap boundary for the default
`maxIterations = 3` — and the judge is about to evaluate.  The singular key
`test_case_iteration_count` is absent, as it is in every state the pipeline
produces. -/
def tcCapState : AgentState :=
  { initialAgentState with
    current_stage := some (.stage .JUDGE_TEST_CASES)
    content := fun k => if k = DocKind.test_cases then some "Feature: login" else some ""
    iteration_count := fun k =>
      match k with
      | .test_cases_iteration_count => some 2
      | .test_case_iteration_count => none
      | _ => some 0 }

/-- A suspended Spec gate whose live document version is 2. -/
def staleGateState : AgentState :=
  { initialAgentState with
    current_stage := some (.stage .HUMAN_REVIEW_SPEC)
    content := fun k => if k = DocKind.spec then some "spec content v2" else some ""
    version := fun k =>
      match k with
      | .current_requirements_spec_version => some 2
      | .current_gherkin_version => none
      | _ => some 0 }

/-- A resume decision referencing document version 1 while the live version
is 2. -/
def staleDecision : HumanResponse :=
  { decision := some "APPROVE", feedback := some "looks fine",
    edited_content := none, document_version := some 1 }

/-- A judge FAIL response whose issue list flags a duplicate utility. -/
def dupIssueJson : RawJudgeJson :=
  { score := some 40, result := some "FAIL",
    feedback := some "Plan duplicates existing helpers.",
    issues := some [{ type := some "duplication",
                      description := some "duplicate utility helper already in utils" }],
    recommendations := some [] }

/-- A collaborator-boundary outcome that the `except` clause of `run_judge`
would catch: the call raised, the content held no JSON, or the extracted
dict fails to parse into a `JudgeEvaluation`. -/
def LLMCall.collaboratorFailed : LLMCall → Prop
  | .raised _ => True
  | .returned (.error _) _ => True
  | .returned (.ok j) _ => ∃ msg, parseJudgeEvaluation j = .error msg

/-- N successive successful generator executions for one kind, each delta
merged into the state before the next (as the framework does between
nodes). -/
def genSuccRun (kind : DocKind) (ikey : IterKey) (vkey : VersionKey)
    (hkey : HistoryKey) (dt fmt : String)
    (ns : WorkflowStage) : List (String × Rat) → AgentState → AgentState
  | [], s => s
  | (c, cost) :: rest, s =>
    genSuccRun kind ikey vkey hkey dt fmt ns rest
      (applyDelta s (gen_node s kind ikey vkey hkey dt fmt ns (.returned c cost)))

/-- The documents appended by successive generations starting from version
`v`: versions `v+1`, `v+2`, … in creation order. -/
def expectedDocs (dt fmt : String) : Nat → List (String × Rat) → List DocumentVersion
  | _, [] => []
  | v, (c, _) :: rest =>
    mkGeneratedDoc dt fmt (v + 1) c :: expectedDocs dt fmt (v + 1) rest

theorem GateMap.get_set (g : GateMap) (k : DocKind) (v : ApprovalGate) :
    (g.set k v).get k = some v := by
  cases k <;> rfl

theorem expectedDocs_length (dt fmt : String) :
    ∀ (v : Nat) (inputs : List (String × Rat)),
      (expectedDocs dt fmt v inputs).length = inputs.length := by
  intro v inputs
  induction inputs generalizing v with
  | nil => rfl
  | cons x rest ih =>
    obtain ⟨c, cost⟩ := x
    simp [expectedDocs, ih]

theorem expectedDocs_map_content (dt fmt : String) :
    ∀ (v : Nat) (inputs : List (String × Rat)),
      (expectedDocs dt fmt v inputs).map DocumentVersion.content
        = inputs.map Prod.fst := by
  intro v inputs
  induction inputs generalizing v with
  | nil => rfl
  | cons x rest ih =>
    obtain ⟨c, cost⟩ := x
    simp [expectedDocs, mkGeneratedDoc, ih]

theorem expectedDocs_map_version (dt fmt : String) :
    ∀ (v : Nat) (inputs : List (String × Rat)),
      (expectedDocs dt fmt v inputs).map DocumentVersion.version
        = List.range' (v + 1) inputs.length := by
  intro v inputs
  induction inputs generalizing v with
  | nil => rfl
  | cons x rest ih =>
    obtain ⟨c, cost⟩ := x
    simp [expectedDocs, mkGeneratedDoc, ih, List.range']

/-- One successful generator execution, merged into the state, bumps the
kind's version by exactly one and appends exactly one document record. -/
theorem gen_step_version_history (s : AgentState) (kind : DocKind)
    (ikey : IterKey) (vkey : VersionKey) (hkey : HistoryKey)
    (dt fmt : String) (ns : WorkflowStage) (c : String) (cost : Rat) :
    ((applyDelta s (gen_node s kind ikey vkey hkey dt fmt ns
        (.returned c cost))).version vkey).getD 0
      = (s.version vkey).getD 0 + 1 ∧
    ((applyDelta s (gen_node s kind ikey vkey hkey dt fmt ns
        (.returned c cost))).history hkey).getD []
      = (s.history hkey).getD []
        ++ [mkGeneratedDoc dt fmt ((s.version vkey).getD 0 + 1) c] := by
  constructor <;> simp [applyDelta, gen_node, mergeField, oneKind]

theorem genSuccRun_version_history (kind : DocKind) (ikey : IterKey)
    (vkey : VersionKey) (hkey : HistoryKey)
    (dt fmt : String) (ns : WorkflowStage) :
    ∀ (inputs : List (String × Rat)) (s : AgentState),
      ((genSuccRun kind ikey vkey hkey dt fmt ns inputs s).version vkey).getD 0
        = (s.version vkey).getD 0 + inputs.length ∧
      ((genSuccRun kind ikey vkey hkey dt fmt ns inputs s).history hkey).getD []
        = (s.history hkey).getD []
          ++ expectedDocs dt fmt ((s.version vkey).getD 0) inputs := by
  intro inputs
  induction inputs with
  | nil => intro s; simp [genSuccRun, expectedDocs]
  | cons x rest ih =>
    intro s
    obtain ⟨c, cost⟩ := x
    have hstep := gen_step_version_history s kind ikey vkey hkey dt fmt ns c cost
    have hrec := ih (applyDelta s (gen_node s kind ikey vkey hkey dt fmt ns
      (.returned c cost)))
    rw [genSuccRun]
    refine ⟨?_, ?_⟩
    · rw [hrec.1, hstep.1]
      simp [List.length_cons]
      omega
    · rw [hrec.2, hstep.2, hstep.1]
      simp [expectedDocs, List.append_assoc]

/-- C9: every routing function of the stage router resolves to graph
termination (`END`) whenever the state's current stage is the terminal
Failed variant, whether stored as the enum value or as its string form
"failed", regardless of any other state — a failed run never re-enters any
generation, evaluation, or review stage. -/
theorem routing_on_failed_stage_terminates (s : AgentState)
    (h : s.current_stage = some (.stage .FAILED)
      ∨ s.current_stage = some (.strVal "failed")) :
    route_after_qa_interaction s = endKey ∧
    route_after_judge_requirements s = endKey ∧
    route_after_human_review_spec s = endKey ∧
    route_after_judge_strategy s = endKey ∧
    route_after_human_review_strategy s = endKey ∧
    route_after_judge_test_cases s = endKey ∧
    route_after_human_review_test_cases s = endKey ∧
    route_after_judge_code_plan s = endKey ∧
    route_after_human_review_code_plan s = endKey ∧
    route_after_judge_code s = endKey ∧
    route_after_human_review_code s = endKey := by
  have hs : safe_get_stage_value s = endKey := by
    rcases h with h | h <;>
      simp [safe_get_stage_value, h, WorkflowStage.value]
  exact ⟨hs, hs, hs, hs, hs, hs, hs, hs, hs, hs, hs⟩

theorem routing_on_failed_stage_terminates_witness :
    route_after_judge_code
        { initialAgentState with current_stage := some (.strVal "failed") }
      = endKey :=
  (routing_on_failed_stage_terminates _ (Or.inr rfl)).2.2.2.2.2.2.2.2.2.2

/-- C5: for every approval gate and decision payload, APPROVE and EDIT both
route to the gate's `approve_stage` (the next cycle's stage); any other
decision — including an unrecognized tag and a missing `decision` field,
which defaults to "REJECT" — takes the REJECT branch: the gate is marked
rejected, the supplied feedback is stored as the run's `human_feedback`,
and routing goes to the gate's `reject_stage`, which at each of the five
concrete gate nodes is the kind's generator stage. -/
theorem gate_decision_routing (state : AgentState) (kind : DocKind)
    (vkey : VersionKey) (approve_stage reject_stage : WorkflowStage)
    (r : HumanResponse) :
    ((r.decision.getD "REJECT" = "APPROVE" ∨ r.decision.getD "REJECT" = "EDIT") →
      (human_review_base state kind vkey approve_stage reject_stage r).current_stage
        = some (.stage approve_stage)) ∧
    (r.decision.getD "REJECT" ≠ "APPROVE" → r.decision.getD "REJECT" ≠ "EDIT" →
      (human_review_base state kind vkey approve_stage reject_stage r).current_stage
        = some (.stage reject_stage) ∧
      (human_review_base state kind vkey approve_stage reject_stage r).approval_gates
        = some ((state.approval_gates.getD GateMap.empty).set kind
            { gate_name := kind.gateName, status := "rejected",
              reviewer := some "human",
              feedback := some (r.feedback.getD ""),
              document_version := some ((state.version vkey).getD 1) }) ∧
      (human_review_base state kind vkey approve_stage reject_stage r).human_feedback
        = some (r.feedback.getD "")) ∧
    (r.decision = none →
      human_review_base state kind vkey approve_stage reject_stage r
        = human_review_base state kind vkey approve_stage reject_stage
            { r with decision := some "REJECT" }) ∧
    (r.decision.getD "REJECT" ≠ "APPROVE" → r.decision.getD "REJECT" ≠ "EDIT" →
      (human_review_spec_node state r).current_stage
        = some (.stage .REQUIREMENTS_SPEC_GEN) ∧
      (human_review_strategy_node state r).current_stage
        = some (.stage .STRATEGY) ∧
      (human_review_test_cases_node state r).current_stage
        = some (.stage .TEST_CASE_GENERATION) ∧
      (human_review_code_plan_node state r).current_stage
        = some (.stage .CODE_STRUCTURE_PLANNING) ∧
      (human_review_code_node state r).current_stage
        = some (.stage .SCRIPTING)) := by
  refine ⟨?_, ?_, ?_, ?_⟩
  · rintro (h | h) <;> simp [human_review_base, h]
  · intro h1 h2
    refine ⟨?_, ?_, ?_⟩ <;> simp [human_review_base, h1, h2]
  · intro h
    simp [human_review_base, h]
  · intro h1 h2
    refine ⟨?_, ?_, ?_, ?_, ?_⟩ <;>
      simp [human_review_spec_node, human_review_strategy_node,
        human_review_test_cases_node, human_review_code_plan_node,
        human_review_code_node, human_review_base, h1, h2]

theorem gate_decision_routing_witness :
    (human_review_spec_node initialAgentState
        { decision := some "UNRECOGNIZED", feedback := some "redo this",
          edited_content := none, document_version := none }).current_stage
      = some (.stage .REQUIREMENTS_SPEC_GEN) :=
  ((gate_decision_routing initialAgentState .spec
      .current_requirements_spec_version .STRATEGY .REQUIREMENTS_SPEC_GEN
      { decision := some "UNRECOGNIZED", feedback := some "redo this",
        edited_content := none, document_version := none }).2.2.2
    (by decide) (by decide)).1

/-- C7: an EDIT decision returns a delta whose only keys are the kind's
content (now the supplied replacement), the gate map — gate approved with
feedback annotated "Approved with edits: …" at the current live version —
and the routing stage; equality with the `Delta.empty` update exhibits that
no version, history, counter, evaluation, cost or status key is present, so
merging the delta keeps the current version number, appends nothing to any
history, and leaves every other state field unchanged. -/
theorem gate_edit_overwrites_content_only (state : AgentState)
    (kind : DocKind) (vkey : VersionKey)
    (approve_stage reject_stage : WorkflowStage)
    (fb : Option String) (ec : String) (dv : Option Nat) :
    ∀ d, d = human_review_base state kind vkey approve_stage reject_stage
        { decision := some "EDIT", feedback := fb,
          edited_content := some ec, document_version := dv } →
      d = { Delta.empty with
              content := oneKind kind ec
              approval_gates := some
                ((state.approval_gates.getD GateMap.empty).set kind
                  { gate_name := kind.gateName, status := "approved",
                    reviewer := some "human",
                    feedback := some ("Approved with edits: " ++ fb.getD ""),
                    document_version := some ((state.version vkey).getD 1) })
              current_stage := some (.stage approve_stage) } ∧
      (applyDelta state d).content kind = some ec ∧
      (∀ (k : VersionKey), (applyDelta state d).version k = state.version k) ∧
      (∀ (k : HistoryKey), (applyDelta state d).history k = state.history k) ∧
      (∀ ik, (applyDelta state d).iteration_count ik = state.iteration_count ik) ∧
      (∀ k, (applyDelta state d).judge_evaluation k = state.judge_evaluation k) ∧
      (∀ k, k ≠ kind → (applyDelta state d).content k = state.content k) ∧
      (applyDelta state d).workflow_status = state.workflow_status ∧
      (applyDelta state d).error_message = state.error_message ∧
      (applyDelta state d).accumulated_cost_usd = state.accumulated_cost_usd ∧
      (applyDelta state d).human_feedback = state.human_feedback ∧
      (applyDelta state d).script_filename = state.script_filename ∧
      (applyDelta state d).gherkin_validation_passed
        = state.gherkin_validation_passed := by
  intro d hd
  subst hd
  have hbase : human_review_base state kind vkey approve_stage reject_stage
      { decision := some "EDIT", feedback := fb,
        edited_content := some ec, document_version := dv }
      = { Delta.empty with
            content := oneKind kind ec
            approval_gates := some
              ((state.approval_gates.getD GateMap.empty).set kind
                { gate_name := kind.gateName, status := "approved",
                  reviewer := some "human",
                  feedback := some ("Approved with edits: " ++ fb.getD ""),
                  document_version := some ((state.version vkey).getD 1) })
            current_stage := some (.stage approve_stage) } := by
    simp [human_review_base]
  rw [hbase]
  refine ⟨rfl, ?_, ?_, ?_, ?_, ?_, ?_, ?_, ?_, ?_, ?_, ?_, ?_⟩ <;>
    first
    | (intro k hk; simp [applyDelta, mergeField, Delta.empty, oneKind, hk])
    | (simp [applyDelta, mergeField, Delta.empty, oneKind])

theorem gate_edit_overwrites_content_only_witness :
    (applyDelta staleGateState
        (human_review_base staleGateState .spec
          .current_requirements_spec_version .STRATEGY
          .REQUIREMENTS_SPEC_GEN
          { decision := some "EDIT", feedback := some "tweaked wording",
            edited_content := some "edited spec body",
            document_version := none })).version
        .current_requirements_spec_version
      = staleGateState.version .current_requirements_spec_version :=
  ((gate_edit_overwrites_content_only staleGateState .spec
      .current_requirements_spec_version .STRATEGY
      .REQUIREMENTS_SPEC_GEN (some "tweaked wording") "edited spec body" none
      _ rfl).2.2.1) .current_requirements_spec_version

/-- C10 (implicit): resuming a gate with decision EDIT but no
`edited_content` field replaces the kind's live content with the empty
string — the payload lookup defaults to "" — while still marking the gate
approved ("Approved with edits: …") and routing forward exactly as a normal
EDIT; the previous content is silently lost. -/
theorem gate_edit_missing_content_blanks_document (state : AgentState)
    (kind : DocKind) (vkey : VersionKey)
    (approve_stage reject_stage : WorkflowStage)
    (fb : Option String) (dv : Option Nat) :
    ∀ d, d = human_review_base state kind vkey approve_stage reject_stage
        { decision := some "EDIT", feedback := fb,
          edited_content := none, document_version := dv } →
      d.content kind = some "" ∧
      (applyDelta state d).content kind = some "" ∧
      d.approval_gates = some
        ((state.approval_gates.getD GateMap.empty).set kind
          { gate_name := kind.gateName, status := "approved",
            reviewer := some "human",
            feedback := some ("Approved with edits: " ++ fb.getD ""),
            document_version := some ((state.version vkey).getD 1) }) ∧
      d.current_stage = some (.stage approve_stage) := by
  intro d hd
  subst hd
  refine ⟨?_, ?_, ?_, ?_⟩ <;>
    simp [human_review_base, applyDelta, mergeField, Delta.empty, oneKind]

theorem gate_edit_missing_content_blanks_document_witness :
    (applyDelta staleGateState
        (human_review_base staleGateState .spec
          .current_requirements_spec_version .STRATEGY
          .REQUIREMENTS_SPEC_GEN
          { decision := some "EDIT", feedback := none,
            edited_content := none, document_version := none })).content .spec
      = some "" :=
  ((gate_edit_missing_content_blanks_document staleGateState .spec
      .current_requirements_spec_version .STRATEGY
      .REQUIREMENTS_SPEC_GEN none none _ rfl).2.1)

/-- C4 counterexample: resuming the Spec gate with a decision referencing
document version 1 while the live version is 2 does NOT yield an error and
does NOT leave the run state unchanged — no error key appears in the delta,
the decision is applied against the live artifact, the gate is marked
approved recording the live version 2, and the merged state differs from
the original. -/
theorem stale_version_decision_applied :
    (human_review_spec_node staleGateState staleDecision).error_message = none ∧
    (human_review_spec_node staleGateState staleDecision).workflow_status = none ∧
    ((human_review_spec_node staleGateState
        staleDecision).approval_gates.getD GateMap.empty).get .spec
      = some { gate_name := "spec", status := "approved",
               reviewer := some "human", feedback := some "looks fine",
               document_version := some 2 } ∧
    (applyDelta staleGateState
        (human_review_spec_node staleGateState staleDecision)).approval_gates
      ≠ staleGateState.approval_gates := by
  decide

/-- C4 amended: `_human_review_base` performs no version validation at all —
the decision payload's version reference is never read, so the returned
delta is identical for any two version references; no error is ever
signalled (the delta carries no `error_message` / `workflow_status` key on
any branch), and the gate record always stores the CURRENT live version
from state rather than the version the decision references. -/
theorem gate_resume_ignores_decision_version (state : AgentState)
    (kind : DocKind) (vkey : VersionKey)
    (approve_stage reject_stage : WorkflowStage)
    (dec fb ec : Option String) (v1 v2 : Option Nat) :
    ∀ d, d = human_review_base state kind vkey approve_stage reject_stage
        { decision := dec, feedback := fb, edited_content := ec,
          document_version := v1 } →
      d = human_review_base state kind vkey approve_stage reject_stage
        { decision := dec, feedback := fb, edited_content := ec,
          document_version := v2 } ∧
      d.error_message = none ∧
      d.workflow_status = none ∧
      ((d.approval_gates.getD GateMap.empty).get kind).map
          ApprovalGate.document_version
        = some (some ((state.version vkey).getD 1)) := by
  intro d hd
  subst hd
  refine ⟨rfl, ?_⟩
  by_cases h1 : dec.getD "REJECT" = "APPROVE"
  · simp [human_review_base, h1, GateMap.get_set, Delta.empty]
  · by_cases h2 : dec.getD "REJECT" = "EDIT"
    · simp [human_review_base, h1, h2, GateMap.get_set, Delta.empty]
    · simp [human_review_base, h1, h2, GateMap.get_set, Delta.empty]

theorem gate_resume_ignores_decision_version_witness :
    (((human_review_spec_node staleGateState
        staleDecision).approval_gates.getD GateMap.empty).get .spec).map
      ApprovalGate.document_version = some (some 2) :=
  (gate_resume_ignores_decision_version staleGateState .spec
    .current_requirements_spec_version .STRATEGY
    .REQUIREMENTS_SPEC_GEN (some "APPROVE") (some "looks fine") none
    (some 1) (some 99) _ rfl).2.2.2

/-- C8: when the collaborator call of a judge errors or its output is
unparseable (no JSON, missing required fields, or an invalid verdict tag),
`run_judge` returns exactly the fatal delta — status FAILED, the causal
error text inside `error_message`, stage FAILED — with no evaluation key
and no cost key; and when the collaborator call of a generator raises, the
generator returns the fatal delta with the verbatim error text and no
content / version / history / counter / cost key.  No retry exists on
either path. -/
theorem collaborator_failure_is_fatal :
    (∀ (state : AgentState) (kind : DocKind) (ikey : IterKey) (trace : String)
        (fs hrs ps : WorkflowStage) (call : LLMCall),
      call.collaboratorFailed →
        (run_judge state kind ikey trace fs hrs ps call).workflow_status
          = some .FAILED ∧
        (run_judge state kind ikey trace fs hrs ps call).current_stage
          = some (.stage .FAILED) ∧
        (∃ msg, (run_judge state kind ikey trace fs hrs ps call).error_message
          = some ("Judge " ++ trace ++ " failed: " ++ msg)) ∧
        (∀ k, (run_judge state kind ikey trace fs hrs ps call).judge_evaluation k
          = none) ∧
        (run_judge state kind ikey trace fs hrs ps call).accumulated_cost_usd
          = none) ∧
    (∀ (state : AgentState) (kind : DocKind) (ikey : IterKey)
        (vkey : VersionKey) (hkey : HistoryKey) (dt fmt : String)
        (ns : WorkflowStage) (msg : String),
      gen_node state kind ikey vkey hkey dt fmt ns (.raised msg)
        = genFailureDelta msg ∧
      scripting_node state (.raised msg) = genFailureDelta msg ∧
      (state.judge_evaluation .test_cases = none →
        test_case_generation_node state (.raisedRuntime msg)
          = some (genFailureDelta msg)) ∧
      (genFailureDelta msg).workflow_status = some .FAILED ∧
      (genFailureDelta msg).current_stage = some (.stage .FAILED) ∧
      (genFailureDelta msg).error_message = some msg ∧
      (∀ k, (genFailureDelta msg).content k = none) ∧
      (∀ (k : VersionKey), (genFailureDelta msg).version k = none) ∧
      (∀ (k : HistoryKey), (genFailureDelta msg).history k = none) ∧
      (∀ ik2, (genFailureDelta msg).iteration_count ik2 = none) ∧
      (∀ k, (genFailureDelta msg).judge_evaluation k = none) ∧
      (genFailureDelta msg).accumulated_cost_usd = none) := by
  constructor
  · intro state kind ikey trace fs hrs ps call hfail
    have hdelta : ∃ m, run_judge state kind ikey trace fs hrs ps call
        = judgeFailureDelta trace m := by
      cases call with
      | raised msg => exact ⟨msg, rfl⟩
      | returned ejson cost =>
        cases ejson with
        | error msg => exact ⟨msg, rfl⟩
        | ok j =>
          obtain ⟨m, hm⟩ := hfail
          exact ⟨m, by simp [run_judge, hm]⟩
    obtain ⟨m, hm⟩ := hdelta
    rw [hm]
    exact ⟨rfl, rfl, ⟨m, rfl⟩, fun k => rfl, rfl⟩
  · intro state kind ikey vkey hkey dt fmt ns msg
    refine ⟨rfl, rfl, ?_, rfl, rfl, rfl, fun k => rfl, fun k => rfl,
      fun k => rfl, fun ik2 => rfl, fun k => rfl, rfl⟩
    intro h
    simp [test_case_generation_node, h]

theorem collaborator_failure_is_fatal_witness :
    (run_judge initialAgentState .spec .requirements_iteration_count
        "judge_requirements" .REQUIREMENTS_SPEC_GEN .HUMAN_REVIEW_SPEC
        .HUMAN_REVIEW_SPEC (.raised "Connection timeout")).workflow_status
      = some .FAILED :=
  (collaborator_failure_is_fatal.1 initialAgentState .spec
    .requirements_iteration_count "judge_requirements"
    .REQUIREMENTS_SPEC_GEN .HUMAN_REVIEW_SPEC .HUMAN_REVIEW_SPEC
    (.raised "Connection timeout") trivial).1

/-- C6: for a CodePlan evaluation that parses to a FAIL verdict below the
iteration cap, `judge_code_plan_node` routes to the CodePlan generator
exactly when the issue list contains a critical issue (duplicate-utility or
convention-violation wording, detected by scanning the lowercased issue
type and description), and otherwise overrides the base FAIL routing to
the human-review stage. -/
theorem code_plan_fail_routing (state : AgentState) (j : RawJudgeJson)
    (cost : Rat) (ev : JudgeEvaluation)
    (hparse : parseJudgeEvaluation j = .ok ev)
    (hfail : ev.result = .FAIL)
    (hnotfinal : (state.iteration_count .code_plan_iteration_count).getD 0
      < state.max_judge_iterations.getD 3 - 1) :
    (judge_code_plan_node state (.returned (.ok j) cost)).judge_evaluation
        .code_plan = some ev ∧
    (judge_code_plan_node state (.returned (.ok j) cost)).current_stage
      = some (.stage (if hasCriticalIssue ev.issues then
          .CODE_STRUCTURE_PLANNING else .HUMAN_REVIEW_CODE_PLAN)) := by
  have hnot : ¬ ((state.iteration_count .code_plan_iteration_count).getD 0
      ≥ state.max_judge_iterations.getD 3 - 1) := by omega
  have hrj : run_judge state .code_plan .code_plan_iteration_count
      "judge_code_plan" .CODE_STRUCTURE_PLANNING .HUMAN_REVIEW_CODE_PLAN
      .HUMAN_REVIEW_CODE_PLAN (.returned (.ok j) cost)
      = { Delta.empty with
          judge_evaluation := oneKind .code_plan ev
          current_stage := some (.stage .CODE_STRUCTURE_PLANNING)
          accumulated_cost_usd :=
            some ((state.accumulated_cost_usd.getD 0) + cost) } := by
    simp [run_judge, hparse, hnot, hfail]
  unfold judge_code_plan_node
  rw [hrj]
  by_cases hc : hasCriticalIssue ev.issues
  · simp [oneKind, hc]
  · simp [oneKind, hc]

theorem code_plan_fail_routing_witness :
    (judge_code_plan_node initialAgentState
        (.returned (.ok dupIssueJson) 0)).current_stage
      = some (.stage .CODE_STRUCTURE_PLANNING) :=
  ((code_plan_fail_routing initialAgentState dupIssueJson 0
      { score := 40, result := .FAIL,
        feedback := "Plan duplicates existing helpers.",
        issues := [{ type := some "duplication",
                     description := some "duplicate utility helper already in utils" }],
        recommendations := [] }
      rfl rfl (by decide)).2).trans (by decide)

/-- C1 (failing input): in the test-cases cycle the kind's iteration
counter — the `test_cases_iteration_count` field that
`test_case_generation_node` increments — stands at 2, the cap boundary for
the default `maxIterations = 3`, and the evaluator parses a FAIL verdict;
yet `judge_test_cases_node` reads the distinct key
`test_case_iteration_count` (absent in every state the pipeline produces,
so 0), computes `is_final_iteration = false`, stores the verdict still as
FAIL and routes back to the generator instead of rewriting it to
NEEDS_HUMAN and routing to human review. -/
theorem judge_test_cases_cap_bypassed :
    (tcCapState.iteration_count .test_cases_iteration_count).getD 0
      ≥ tcCapState.max_judge_iterations.getD 3 - 1 ∧
    tcCapState.iteration_count .test_case_iteration_count = none ∧
    (judge_test_cases_node tcCapState
        (.returned (.ok failJudgeJson) 0)).judge_evaluation .test_cases
      = some { score := 55, result := .FAIL,
               feedback := "Document is incomplete.",
               issues := [], recommendations := [] } ∧
    (judge_test_cases_node tcCapState
        (.returned (.ok failJudgeJson) 0)).current_stage
      = some (.stage .TEST_CASE_GENERATION) := by
  decide

/-- C2 counterexample: with `maxIterations = 3` (the unset default) and the
Spec evaluator forced to FAIL on every evaluation, the run executes the
Spec generator exactly TWICE, not three times — the generator increments
the counter before its judge reads it, so the second evaluation already
sees counter 2 ≥ maxIterations − 1, rewrites FAIL and escalates; a third
generation never happens. -/
theorem spec_three_generations_counterexample :
    (runSpecFailLoop 10 specScenarioStart).2 = 2 ∧
    (runSpecFailLoop 10 specScenarioStart).2 ≠ 3 ∧
    (runSpecFailLoop 10 specScenarioStart).1.current_stage
      = some (.stage .HUMAN_REVIEW_SPEC) := by
  decide

/-- C2 amended: with `maxIterations = 3` and the Spec evaluator forced to
FAIL, the Spec generator runs exactly twice; the Spec iteration counter is
1 when the second generation runs (2 after it); the first evaluation keeps
FAIL and routes back to the generator; the second evaluation is rewritten
to NEEDS_HUMAN and routes to the Spec approval gate. -/
theorem spec_fail_loop_two_generations :
    specS1.iteration_count .requirements_iteration_count = some 1 ∧
    (specS2.judge_evaluation .spec).map JudgeEvaluation.result
      = some .FAIL ∧
    specS2.current_stage = some (.stage .REQUIREMENTS_SPEC_GEN) ∧
    specS2.iteration_count .requirements_iteration_count = some 1 ∧
    specS3.iteration_count .requirements_iteration_count = some 2 ∧
    specS3.current_stage = some (.stage .JUDGE_REQUIREMENTS) ∧
    (specS4.judge_evaluation .spec).map JudgeEvaluation.result
      = some .NEEDS_HUMAN ∧
    specS4.current_stage = some (.stage .HUMAN_REVIEW_SPEC) ∧
    (runSpecFailLoop 10 specScenarioStart).2 = 2 := by
  decide

/-- C3 (failing input): one successful Gherkin generation from the initial
state.  The claim requires the live version counter of the TestCases kind
to then equal 1 with one history entry, and in general version = history
length for every kind.  The code instead writes the new version and the
appended history under the UNDECLARED keys `current_gherkin_version` /
`gherkin_history`, while the declared `current_test_cases_version` /
`test_cases_history` — the slots `create_initial_state` initializes, the
test-cases gate reads as its document version, and the snapshot view
displays — are never written by any node and still read 0 / [] after the
generation.  By contrast the Spec generator (shown in the same theorem)
updates its declared pair to 1 / one entry, as do the other three kinds
whose read and write keys agree. -/
theorem test_cases_live_version_never_updated :
    ((applyDelta initialAgentState
        ((test_case_generation_node initialAgentState
          (.success "Feature: login" true 0)).getD Delta.empty)).version
        .current_test_cases_version = some 0) ∧
    ((applyDelta initialAgentState
        ((test_case_generation_node initialAgentState
          (.success "Feature: login" true 0)).getD Delta.empty)).history
        .test_cases_history = some []) ∧
    (((test_case_generation_node initialAgentState
        (.success "Feature: login" true 0)).getD Delta.empty).version
        .current_test_cases_version = none) ∧
    (((test_case_generation_node initialAgentState
        (.success "Feature: login" true 0)).getD Delta.empty).history
        .test_cases_history = none) ∧
    ((applyDelta initialAgentState
        ((test_case_generation_node initialAgentState
          (.success "Feature: login" true 0)).getD Delta.empty)).version
        .current_gherkin_version = some 1) ∧
    (((applyDelta initialAgentState
        ((test_case_generation_node initialAgentState
          (.success "Feature: login" true 0)).getD Delta.empty)).history
        .gherkin_history).map List.length = some 1) ∧
    ((applyDelta initialAgentState
        (requirements_spec_gen_node initialAgentState
          (.returned "spec draft" 0))).version
        .current_requirements_spec_version = some 1) ∧
    (((applyDelta initialAgentState
        (requirements_spec_gen_node initialAgentState
          (.returned "spec draft" 0))).history
        .requirements_spec_history).map List.length = some 1) := by
  decide
